import Mathlib

/-!
Shallow embedding of gc/base/Configuration.cpp (MM_Configuration) and the
invariants claimed for it.  Machine words (uintptr_t / UDATA) are modelled as
Nat, with an explicit reduction modulo 2^64 at every operation where the C
computation can wrap.  Compile-time feature guards (OMR_GC_MODRON_SCAVENGER,
OMR_GC_COMPRESSED_POINTERS, J9VM_OPT_CRIU_SUPPORT) are modelled as Bool
parameters of the corresponding functions.  External collaborators (the
delegate, the port library, newInstance-style constructors) are modelled by
their outcomes, passed in as parameters.
-/

/-- Width of a 64-bit machine word: uintptr_t arithmetic is modulo this. -/
def WORD : Nat := 2 ^ 64

/-- Scavenger scan-ordering values of MM_GCExtensionsBase. -/
inductive ScanOrdering where
  | scanOrderingNone
  | breadthFirst
  | dynamicBreadthFirst
  | hierarchical
deriving DecidableEq

/-- The parallel dispatcher, as far as Configuration.cpp observes it. -/
structure DispatcherM where
  threadCountMaximum : Nat
deriving DecidableEq

/-- The heap, as far as Configuration.cpp observes it: a default memory
space handle and its base/top addresses (addresses are Nat, 0 = NULL). -/
structure HeapM where
  defaultMemorySpace : Option Unit
  base : Nat
  top : Nat
deriving DecidableEq

/-- The fields of the shared MM_GCExtensionsBase record that
Configuration.cpp reads or writes.  Handles owned by tearDown are Option
(none = NULL); fvtest addresses are Nat with 0 standing for NULL. -/
structure Extensions where
  gcThreadCountSpecified : Bool
  gcThreadCount : Nat
  packetListSplitForced : Bool
  packetListSplit : Nat
  cacheListSplitForced : Bool
  cacheListSplit : Nat
  splitFreeListAmountForced : Bool
  splitFreeListSplitAmount : Nat
  scavengerEnabled : Bool
  scavengerScanOrdering : ScanOrdering
  adaptiveGcCountBetweenHotFieldSort : Bool
  excessiveGCEnabled_wasSpecified : Bool
  excessiveGCEnabled_valueSpecified : Bool
  shouldAllowShiftingCompression : Bool
  shouldForceSpecifiedShiftingCompression : Bool
  forcedShiftingCompressionAmount : Nat
  shouldForceLowMemoryHeapCeilingShiftIfPossible : Bool
  regionSize : Nat
  heap : Option HeapM
  referenceChainWalkerMarkMap : Option Unit
  globalCollector : Option Unit
  dispatcher : Option DispatcherM
  globalAllocationManager : Option Unit
  memoryManager : Option Unit
  heapRegionManager : Option Unit
  lightweightNonReentrantLockPool : Option Unit
  isMetronome : Bool
  fvtest_verifyHeapAbove : Nat
  fvtest_verifyHeapBelow : Nat
deriving DecidableEq

/-- A fixture Extensions value (all flags off, all handles NULL, all
counters zero) used to build concrete test states. -/
def extDefault : Extensions :=
  { gcThreadCountSpecified := false
    gcThreadCount := 0
    packetListSplitForced := false
    packetListSplit := 0
    cacheListSplitForced := false
    cacheListSplit := 0
    splitFreeListAmountForced := false
    splitFreeListSplitAmount := 0
    scavengerEnabled := false
    scavengerScanOrdering := ScanOrdering.scanOrderingNone
    adaptiveGcCountBetweenHotFieldSort := false
    excessiveGCEnabled_wasSpecified := false
    excessiveGCEnabled_valueSpecified := false
    shouldAllowShiftingCompression := false
    shouldForceSpecifiedShiftingCompression := false
    forcedShiftingCompressionAmount := 0
    shouldForceLowMemoryHeapCeilingShiftIfPossible := false
    regionSize := 0
    heap := none
    referenceChainWalkerMarkMap := none
    globalCollector := none
    dispatcher := none
    globalAllocationManager := none
    memoryManager := none
    heapRegionManager := none
    lightweightNonReentrantLockPool := none
    isMetronome := false
    fvtest_verifyHeapAbove := 0
    fvtest_verifyHeapBelow := 0 }

/-- MM_Configuration::defaultGCThreadCount: the CPU count reported by the
port library for the target CPU class, capped by the delegate maximum
(written as the source does, with a comparison rather than min). -/
def defaultGCThreadCount (cpus maxGCThreadCount : Nat) : Nat :=
  if maxGCThreadCount < cpus then maxGCThreadCount else cpus

/-- MM_Configuration::initializeGCThreadCount: derive the thread count from
the CPU count unless the user specified one; in a CRIU build the delegate
hook checkPointGCThreadCountVerifyAndAdjust then runs, modelled as an
arbitrary adjustment function on the count. -/
def initializeGCThreadCount (criuBuild : Bool) (adjust : Nat → Nat)
    (cpus maxGCThreadCount : Nat) (ext : Extensions) : Extensions :=
  let ext1 :=
    if ext.gcThreadCountSpecified then ext
    else { ext with gcThreadCount := defaultGCThreadCount cpus maxGCThreadCount }
  if criuBuild then { ext1 with gcThreadCount := adjust ext1.gcThreadCount } else ext1

/-- C2 counterexample: with 0 CPUs reported and a delegate maximum of 5,
the derived thread count is 0, refuting the claim that the derived count
is always at least 1. -/
theorem initializeGCThreadCount_counterexample :
    ¬ (1 ≤ (initializeGCThreadCount false (fun n => n) 0 5 extDefault).gcThreadCount) := by
  decide

/-- C2 (amended): with no user-specified count, initializeGCThreadCount
sets the thread count to min(CPU count, delegate maximum); that value is
at least 1 whenever both inputs are at least 1.  With a user-specified
count the CPU-based derivation is skipped entirely (the state is
unchanged).  Stated for a non-CRIU build, where no delegate adjustment
hook runs. -/
theorem initializeGCThreadCount_spec (adjust : Nat → Nat)
    (cpus maxGCThreadCount : Nat) (ext : Extensions) :
    (ext.gcThreadCountSpecified = false →
      (initializeGCThreadCount false adjust cpus maxGCThreadCount ext).gcThreadCount
        = min cpus maxGCThreadCount
      ∧ (1 ≤ cpus → 1 ≤ maxGCThreadCount →
          1 ≤ (initializeGCThreadCount false adjust cpus maxGCThreadCount ext).gcThreadCount))
    ∧ (ext.gcThreadCountSpecified = true →
      initializeGCThreadCount false adjust cpus maxGCThreadCount ext = ext) := by
  constructor
  · intro h
    have hcount :
        (initializeGCThreadCount false adjust cpus maxGCThreadCount ext).gcThreadCount
          = min cpus maxGCThreadCount := by
      simp [initializeGCThreadCount, defaultGCThreadCount, h]
      split <;> omega
    refine ⟨hcount, ?_⟩
    intro h1 h2
    rw [hcount]
    omega
  · intro h
    simp [initializeGCThreadCount, h]

/-- C2 witness: a concrete run of the amended theorem with 4 CPUs and a
delegate maximum of 64 on an unspecified-count state. -/
theorem initializeGCThreadCount_spec_witness :
    extDefault.gcThreadCountSpecified = false
    ∧ (initializeGCThreadCount false (fun n => n) 4 64 extDefault).gcThreadCount = min 4 64
    ∧ 1 ≤ (initializeGCThreadCount false (fun n => n) 4 64 extDefault).gcThreadCount :=
  ⟨rfl,
   ((initializeGCThreadCount_spec (fun n => n) 4 64 extDefault).1 rfl).1,
   ((initializeGCThreadCount_spec (fun n => n) 4 64 extDefault).1 rfl).2
     (by decide) (by decide)⟩

/-- The uintptr_t expression x - 1: wraps to 2^64 - 1 when x is 0. -/
def predWrap (x : Nat) : Nat := (x + (WORD - 1)) % WORD

/-- MM_Configuration::initializeGCParameters, for a given scavenger build
configuration (OMR_GC_MODRON_SCAVENGER) and port-library CPU count.  The
split amount derived from the thread count is (threadCount - 1) / 8 + 1 in
uintptr_t arithmetic; each split factor, when not user-forced, is raised to
the maximum of its current value and the freshly derived amount (the source
keeps OMR_MAX semantics so that a CRIU restore never shrinks a split). -/
def initializeGCParameters (scavengerBuild : Bool) (cpus : Nat)
    (ext : Extensions) : Extensions :=
  let splitAmount := predWrap ext.gcThreadCount / 8 + 1
  let ext1 :=
    if ext.packetListSplitForced then ext
    else { ext with packetListSplit := max ext.packetListSplit splitAmount }
  let ext2 :=
    if scavengerBuild then
      let e :=
        if ext1.cacheListSplitForced then ext1
        else { ext1 with cacheListSplit := max ext1.cacheListSplit splitAmount }
      if e.scavengerEnabled then
        if e.scavengerScanOrdering = ScanOrdering.scanOrderingNone then
          { e with scavengerScanOrdering := ScanOrdering.hierarchical }
        else if e.scavengerScanOrdering = ScanOrdering.dynamicBreadthFirst then
          { e with adaptiveGcCountBetweenHotFieldSort := true }
        else e
      else e
    else ext1
  if ext2.splitFreeListAmountForced then ext2
  else
    let freeListSplitAmount :=
      if scavengerBuild && ext2.scavengerEnabled then splitAmount
      else predWrap cpus / 8 + 1
    { ext2 with
      splitFreeListSplitAmount := max ext2.splitFreeListSplitAmount freeListSplitAmount }

theorem predWrap_eq (x : Nat) (h1 : 1 ≤ x) (h2 : x < WORD) : predWrap x = x - 1 := by
  have hW : WORD = 18446744073709551616 := by norm_num [WORD]
  unfold predWrap
  rw [hW] at h2 ⊢
  omega

theorem initializeGCParameters_eq (sb : Bool) (cpus : Nat) (ext : Extensions) :
    initializeGCParameters sb cpus ext =
      { ext with
        packetListSplit :=
          if ext.packetListSplitForced then ext.packetListSplit
          else max ext.packetListSplit (predWrap ext.gcThreadCount / 8 + 1)
        cacheListSplit :=
          if sb && !ext.cacheListSplitForced then
            max ext.cacheListSplit (predWrap ext.gcThreadCount / 8 + 1)
          else ext.cacheListSplit
        scavengerScanOrdering :=
          if sb && ext.scavengerEnabled
              && (ext.scavengerScanOrdering == ScanOrdering.scanOrderingNone) then
            ScanOrdering.hierarchical
          else ext.scavengerScanOrdering
        adaptiveGcCountBetweenHotFieldSort :=
          if sb && ext.scavengerEnabled
              && (ext.scavengerScanOrdering == ScanOrdering.dynamicBreadthFirst) then
            true
          else ext.adaptiveGcCountBetweenHotFieldSort
        splitFreeListSplitAmount :=
          if ext.splitFreeListAmountForced then ext.splitFreeListSplitAmount
          else
            max ext.splitFreeListSplitAmount
              (if sb && ext.scavengerEnabled then predWrap ext.gcThreadCount / 8 + 1
               else predWrap cpus / 8 + 1) } := by
  obtain ⟨gcs, gct, plf, pls, clf, cls, sff, sfs, se, sso, ad, ew, ev, sa, sf, fa, sl,
    rs, hp, rm, gc, dp, gam, mm, hrm, lp, im, fva, fvb⟩ := ext
  cases plf <;> cases sb <;> cases clf <;> cases se <;> cases sff <;> cases sso <;> rfl

/-- C3 counterexample: with thread count 1 (split amount 1), scavenger
enabled and nothing user-forced, a prior free-list split of 10 yields a
final free-list split of 10 while the scan-cache split is 1: the free-list
split amount does not equal the thread-count-derived scan-cache split
amount, because both updates keep the maximum with the prior value. -/
theorem initializeGCParameters_counterexample :
    (initializeGCParameters true 1
        { extDefault with
          gcThreadCount := 1
          scavengerEnabled := true
          splitFreeListSplitAmount := 10 }).splitFreeListSplitAmount
      ≠ (initializeGCParameters true 1
        { extDefault with
          gcThreadCount := 1
          scavengerEnabled := true
          splitFreeListSplitAmount := 10 }).cacheListSplit := by
  decide

/-- C3 (amended): for thread count T at least 1, initializeGCParameters
raises each non-user-forced split factor to the maximum of its prior value
and a fresh candidate: the candidate for the work-packet list split and for
the scan-cache list split (the latter only in a scavenger build) is
(T - 1) / 8 + 1, and the candidate for the free-list split is that same
thread-derived amount when a scavenging collector is active, overriding the
generic CPU-based (cpus - 1) / 8 + 1 default; user-forced split factors are
left untouched. -/
theorem initializeGCParameters_splits (sb : Bool) (cpus : Nat) (ext : Extensions)
    (hT1 : 1 ≤ ext.gcThreadCount) (hTW : ext.gcThreadCount < WORD)
    (hC1 : 1 ≤ cpus) (hCW : cpus < WORD) :
    ((ext.packetListSplitForced = false →
        (initializeGCParameters sb cpus ext).packetListSplit
          = max ext.packetListSplit ((ext.gcThreadCount - 1) / 8 + 1))
      ∧ (ext.packetListSplitForced = true →
        (initializeGCParameters sb cpus ext).packetListSplit = ext.packetListSplit))
    ∧ ((sb = true → ext.cacheListSplitForced = false →
        (initializeGCParameters sb cpus ext).cacheListSplit
          = max ext.cacheListSplit ((ext.gcThreadCount - 1) / 8 + 1))
      ∧ (sb = false ∨ ext.cacheListSplitForced = true →
        (initializeGCParameters sb cpus ext).cacheListSplit = ext.cacheListSplit))
    ∧ ((ext.splitFreeListAmountForced = false →
        (initializeGCParameters sb cpus ext).splitFreeListSplitAmount
          = max ext.splitFreeListSplitAmount
              (if sb && ext.scavengerEnabled then (ext.gcThreadCount - 1) / 8 + 1
               else (cpus - 1) / 8 + 1))
      ∧ (ext.splitFreeListAmountForced = true →
        (initializeGCParameters sb cpus ext).splitFreeListSplitAmount
          = ext.splitFreeListSplitAmount)) := by
  have hT := predWrap_eq ext.gcThreadCount hT1 hTW
  have hC := predWrap_eq cpus hC1 hCW
  rw [initializeGCParameters_eq]
  refine ⟨⟨?_, ?_⟩, ⟨?_, ?_⟩, ⟨?_, ?_⟩⟩ <;> intro h
  · simp [h, hT]
  · simp [h]
  · intro h2
    simp [h, h2, hT]
  · rcases h with h | h <;> simp [h]
  · simp [h, hT, hC]
  · simp [h]

/-- C3 witness: a concrete run of the amended split-factor theorem with
17 threads (split candidate 3), 4 CPUs, scavenger active, and prior split
values 1. -/
theorem initializeGCParameters_splits_witness :
    1 ≤ (17 : Nat) ∧ (17 : Nat) < WORD ∧ 1 ≤ (4 : Nat) ∧ (4 : Nat) < WORD
    ∧ ((initializeGCParameters true 4
          { extDefault with
            gcThreadCount := 17
            scavengerEnabled := true
            packetListSplit := 1
            cacheListSplit := 1
            splitFreeListSplitAmount := 1 }).packetListSplit
        = max 1 ((17 - 1) / 8 + 1)) := by
  refine ⟨by decide, by norm_num [WORD], by decide, by norm_num [WORD], ?_⟩
  exact ((initializeGCParameters_splits true 4
      { extDefault with
        gcThreadCount := 17
        scavengerEnabled := true
        packetListSplit := 1
        cacheListSplit := 1
        splitFreeListSplitAmount := 1 }
      (by decide) (by norm_num [WORD]) (by decide) (by norm_num [WORD])).1.1 rfl)

theorem gcThreadCount_preserves (cb : Bool) (adj : Nat → Nat) (c m : Nat)
    (ext : Extensions) :
    (initializeGCThreadCount cb adj c m ext).dispatcher = ext.dispatcher
    ∧ (initializeGCThreadCount cb adj c m ext).packetListSplit = ext.packetListSplit
    ∧ (initializeGCThreadCount cb adj c m ext).cacheListSplit = ext.cacheListSplit
    ∧ (initializeGCThreadCount cb adj c m ext).splitFreeListSplitAmount
        = ext.splitFreeListSplitAmount
    ∧ (initializeGCThreadCount cb adj c m ext).excessiveGCEnabled_wasSpecified
        = ext.excessiveGCEnabled_wasSpecified
    ∧ (initializeGCThreadCount cb adj c m ext).excessiveGCEnabled_valueSpecified
        = ext.excessiveGCEnabled_valueSpecified := by
  unfold initializeGCThreadCount
  split <;> split <;> simp

/-- MM_Configuration::reinitializeForRestore (J9VM_OPT_CRIU_SUPPORT): the
thread count is re-derived (with the CRIU delegate adjustment hook), then
raised to at least the dispatcher maximum thread count, then the GC
parameters are re-tuned.  The delegate restore hook and the walk over live
threads are modelled by their boolean outcomes; the source dereferences the
dispatcher handle unconditionally, modelled with getD on the Option. -/
def reinitializeForRestore (scavengerBuild : Bool) (adjust : Nat → Nat)
    (cpus maxGCThreadCount : Nat) (delegateRestoreOk threadsReinitOk : Bool)
    (ext : Extensions) : Bool × Extensions :=
  let ext1 := initializeGCThreadCount true adjust cpus maxGCThreadCount ext
  let ext2 :=
    { ext1 with
      gcThreadCount :=
        max ((ext1.dispatcher.map DispatcherM.threadCountMaximum).getD 0)
          ext1.gcThreadCount }
  let ext3 := initializeGCParameters scavengerBuild cpus ext2
  (delegateRestoreOk && threadsReinitOk, ext3)

/-- C4: after reinitializeForRestore the GC thread count is at least the
dispatcher's already-established maximum thread count, whatever the freshly
derived count was, and each split factor (work-packet list, scan-cache
list, free list) is at least its value before reinitialization. -/
theorem reinitializeForRestore_monotone (sb : Bool) (adjust : Nat → Nat)
    (cpus maxGCThreadCount : Nat) (delegateRestoreOk threadsReinitOk : Bool)
    (ext : Extensions) (d : DispatcherM) (hd : ext.dispatcher = some d) :
    d.threadCountMaximum
      ≤ (reinitializeForRestore sb adjust cpus maxGCThreadCount delegateRestoreOk
          threadsReinitOk ext).2.gcThreadCount
    ∧ ext.packetListSplit
      ≤ (reinitializeForRestore sb adjust cpus maxGCThreadCount delegateRestoreOk
          threadsReinitOk ext).2.packetListSplit
    ∧ ext.cacheListSplit
      ≤ (reinitializeForRestore sb adjust cpus maxGCThreadCount delegateRestoreOk
          threadsReinitOk ext).2.cacheListSplit
    ∧ ext.splitFreeListSplitAmount
      ≤ (reinitializeForRestore sb adjust cpus maxGCThreadCount delegateRestoreOk
          threadsReinitOk ext).2.splitFreeListSplitAmount := by
  obtain ⟨hdisp, hpk, hca, hfr, -, -⟩ :=
    gcThreadCount_preserves true adjust cpus maxGCThreadCount ext
  simp only [reinitializeForRestore, initializeGCParameters_eq]
  simp only [hdisp, hd, hpk, hca, hfr, Option.map_some', Option.getD_some]
  refine ⟨Nat.le_max_left _ _, ?_, ?_, ?_⟩ <;> (repeat' split) <;> simp [hpk, hca, hfr]

/-- C4 witness: a dispatcher that already established 8 threads, a fresh
derivation of 4 (4 CPUs, unspecified count): the post-restore count stays
at least 8 and no split factor drops. -/
theorem reinitializeForRestore_monotone_witness :
    ({ extDefault with
        dispatcher := some { threadCountMaximum := 8 }
        gcThreadCount := 8
        packetListSplit := 2 } : Extensions).dispatcher
      = some { threadCountMaximum := 8 }
    ∧ (8 : Nat)
      ≤ (reinitializeForRestore true (fun n => n) 4 64 true true
          { extDefault with
            dispatcher := some { threadCountMaximum := 8 }
            gcThreadCount := 8
            packetListSplit := 2 }).2.gcThreadCount
    ∧ (2 : Nat)
      ≤ (reinitializeForRestore true (fun n => n) 4 64 true true
          { extDefault with
            dispatcher := some { threadCountMaximum := 8 }
            gcThreadCount := 8
            packetListSplit := 2 }).2.packetListSplit :=
  ⟨rfl,
   (reinitializeForRestore_monotone true (fun n => n) 4 64 true true
      { extDefault with
        dispatcher := some { threadCountMaximum := 8 }
        gcThreadCount := 8
        packetListSplit := 2 } { threadCountMaximum := 8 } rfl).1,
   (reinitializeForRestore_monotone true (fun n => n) 4 64 true true
      { extDefault with
        dispatcher := some { threadCountMaximum := 8 }
        gcThreadCount := 8
        packetListSplit := 2 } { threadCountMaximum := 8 } rfl).2.1⟩

/-- Platform minimum shift the source bumps small nonzero shifts to; its
value 3 is stated by the source comment (non-S390 platforms). -/
def DEFAULT_LOW_MEMORY_HEAP_CEILING_SHIFT : Nat := 3

/-- The shift-clamping loop of initializeRunTimeObjectAlignmentAndCRShift:
starting at underShift = s - 1, keep decrementing while the heap top still
fits below (2^32 << underShift); the result is underShift + 1.  The UDATA
shift computes modulo 2^64.  Reaching underShift = -1 exits the loop (the
source compares against a left shift by -1, which on the supported
platforms yields a value below any nonzero heap top). -/
def clampShift (heapTop : Nat) : Nat → Nat
  | 0 => 0
  | s + 1 => if heapTop ≤ (2 ^ 32 * 2 ^ s) % WORD then clampShift heapTop s else s + 1

/-- MM_Configuration::initializeRunTimeObjectAlignmentAndCRShift for the
OMR_GC_COMPRESSED_POINTERS build on a non-S390 platform, restricted to its
shift computation: ceilingShift stands for the LOW_MEMORY_HEAP_CEILING_SHIFT
platform constant.  Returns the boolean result and the shift published into
the OMR VM (none when references are not compressed or on the
impossible-geometry failure path). -/
def initializeRunTimeObjectAlignmentAndCRShift (compressedRefs : Bool)
    (ceilingShift : Nat) (ext : Extensions) (heapTop : Nat) : Bool × Option Nat :=
  if compressedRefs then
    let shiftA := if ext.shouldAllowShiftingCompression then ceilingShift else 0
    let shift0 :=
      if ext.shouldForceSpecifiedShiftingCompression then
        ext.forcedShiftingCompressionAmount
      else shiftA
    if heapTop ≤ (2 ^ 32 * 2 ^ shift0) % WORD then
      let shift1 :=
        if ext.shouldForceSpecifiedShiftingCompression then shift0
        else clampShift heapTop shift0
      let shift2 :=
        if ext.shouldForceSpecifiedShiftingCompression = false ∧ shift1 ≠ 0
            ∧ shift1 < DEFAULT_LOW_MEMORY_HEAP_CEILING_SHIFT then
          DEFAULT_LOW_MEMORY_HEAP_CEILING_SHIFT
        else shift1
      let shift3 :=
        if ext.shouldForceLowMemoryHeapCeilingShiftIfPossible = true
            ∧ ext.shouldForceSpecifiedShiftingCompression = false
            ∧ shift2 < DEFAULT_LOW_MEMORY_HEAP_CEILING_SHIFT then
          DEFAULT_LOW_MEMORY_HEAP_CEILING_SHIFT
        else shift2
      (true, some shift3)
    else (false, none)
  else (true, none)

theorem two_pow_mod_WORD (k : Nat) (hk : k < 32) :
    (2 ^ 32 * 2 ^ k) % WORD = 2 ^ 32 * 2 ^ k := by
  apply Nat.mod_eq_of_lt
  have h1 : (2 : Nat) ^ 32 * 2 ^ k = 2 ^ (32 + k) := by rw [pow_add]
  rw [h1, WORD]
  exact Nat.pow_lt_pow_right (by norm_num) (by omega)

theorem two_pow_mod_WORD_zero (k : Nat) (hk : 32 ≤ k) :
    (2 ^ 32 * 2 ^ k) % WORD = 0 := by
  have h1 : (2 : Nat) ^ 32 * 2 ^ k = WORD * 2 ^ (k - 32) := by
    rw [WORD, ← pow_add]
    rw [← pow_add]
    congr 1
    omega
  rw [h1]
  exact Nat.mul_mod_right _ _

theorem clampShift_le (heapTop s : Nat) : clampShift heapTop s ≤ s := by
  induction s with
  | zero => simp [clampShift]
  | succ n ih =>
    unfold clampShift
    split
    · omega
    · omega

theorem clampShift_bound (heapTop s : Nat) (hs : s < 32)
    (h : heapTop ≤ 2 ^ 32 * 2 ^ s) :
    heapTop ≤ 2 ^ 32 * 2 ^ clampShift heapTop s := by
  induction s with
  | zero => simpa [clampShift] using h
  | succ n ih =>
    unfold clampShift
    split
    · rename_i hc
      rw [two_pow_mod_WORD n (by omega)] at hc
      exact ih (by omega) hc
    · exact h

theorem clampShift_min (heapTop s : Nat) (hs : s < 32) :
    clampShift heapTop s = 0
    ∨ 2 ^ 32 * 2 ^ (clampShift heapTop s - 1) < heapTop := by
  induction s with
  | zero => left; rfl
  | succ n ih =>
    unfold clampShift
    split
    · exact ih (by omega)
    · rename_i hc
      rw [two_pow_mod_WORD n (by omega)] at hc
      right
      simpa using Nat.lt_of_not_le hc

/-- C5: under compressed references, whenever
initializeRunTimeObjectAlignmentAndCRShift publishes a shift, the heap top
fits: heapTop ≤ 2^32 * 2^shift; and when the shift is not forced, it is
minimal subject to the platform floor: reducing it by one would either
break the bound or land below DEFAULT_LOW_MEMORY_HEAP_CEILING_SHIFT. -/
theorem crShift_bound_minimal (ceilingShift : Nat) (ext : Extensions)
    (heapTop shift : Nat) (hL : ceilingShift < 32)
    (h : (initializeRunTimeObjectAlignmentAndCRShift true ceilingShift ext heapTop).2
          = some shift) :
    heapTop ≤ 2 ^ 32 * 2 ^ shift
    ∧ (ext.shouldForceSpecifiedShiftingCompression = false → 0 < shift →
        (2 ^ 32 * 2 ^ (shift - 1) < heapTop
         ∨ shift - 1 < DEFAULT_LOW_MEMORY_HEAP_CEILING_SHIFT)) := by
  by_cases hf : ext.shouldForceSpecifiedShiftingCompression = true
  · simp only [initializeRunTimeObjectAlignmentAndCRShift, hf, if_true,
      Bool.true_eq_false, false_and, and_false, if_false] at h
    by_cases hg : heapTop ≤ (2 ^ 32 * 2 ^ ext.forcedShiftingCompressionAmount) % WORD
    · rw [if_pos hg] at h
      simp only [Option.some.injEq] at h
      subst h
      refine ⟨?_, ?_⟩
      · by_cases h32 : ext.forcedShiftingCompressionAmount < 32
        · rwa [two_pow_mod_WORD _ h32] at hg
        · rw [two_pow_mod_WORD_zero _ (by omega)] at hg
          omega
      · intro hcontra
        rw [hf] at hcontra
        exact absurd hcontra (by simp)
    · rw [if_neg hg] at h
      exact absurd h (by simp)
  · have hf0 : ext.shouldForceSpecifiedShiftingCompression = false := by
      simpa using hf
    simp only [initializeRunTimeObjectAlignmentAndCRShift, hf0, Bool.false_eq_true,
      if_false, ne_eq, true_and] at h
    set s0 := if ext.shouldAllowShiftingCompression = true then ceilingShift else 0
      with hs0def
    have hs0 : s0 < 32 := by
      rw [hs0def]
      split
      · exact hL
      · omega
    set m := clampShift heapTop s0 with hm
    by_cases hg : heapTop ≤ (2 ^ 32 * 2 ^ s0) % WORD
    · rw [if_pos hg] at h
      rw [two_pow_mod_WORD s0 hs0] at hg
      change some _ = some shift at h
      rw [Option.some.injEq] at h
      have hbm : heapTop ≤ 2 ^ 32 * 2 ^ m := clampShift_bound heapTop s0 hs0 hg
      have hmin : m = 0 ∨ 2 ^ 32 * 2 ^ (m - 1) < heapTop :=
        clampShift_min heapTop s0 hs0
      by_cases hc2 : ¬m = 0 ∧ m < DEFAULT_LOW_MEMORY_HEAP_CEILING_SHIFT
      · rw [if_pos hc2] at h
        rw [if_neg (by simp)] at h
        subst h
        refine ⟨?_, fun _ _ => Or.inr (by decide)⟩
        calc heapTop ≤ 2 ^ 32 * 2 ^ m := hbm
          _ ≤ 2 ^ 32 * 2 ^ DEFAULT_LOW_MEMORY_HEAP_CEILING_SHIFT :=
            Nat.mul_le_mul (Nat.le_refl _)
              (Nat.pow_le_pow_right (by norm_num) (by omega))
      · rw [if_neg hc2] at h
        by_cases hc3 : ext.shouldForceLowMemoryHeapCeilingShiftIfPossible = true
            ∧ m < DEFAULT_LOW_MEMORY_HEAP_CEILING_SHIFT
        · rw [if_pos hc3] at h
          subst h
          refine ⟨?_, fun _ _ => Or.inr (by decide)⟩
          calc heapTop ≤ 2 ^ 32 * 2 ^ m := hbm
            _ ≤ 2 ^ 32 * 2 ^ DEFAULT_LOW_MEMORY_HEAP_CEILING_SHIFT :=
              Nat.mul_le_mul (Nat.le_refl _)
                (Nat.pow_le_pow_right (by norm_num) (by omega))
        · rw [if_neg hc3] at h
          subst h
          refine ⟨hbm, fun _ hpos => ?_⟩
          rcases hmin with h0 | hlt
          · omega
          · exact Or.inl hlt
    · rw [if_neg hg] at h
      exact absurd h (by simp)

/-- C5 witness: ceiling shift 4, shifting allowed, heap top 2^35; the
published shift is 3 and satisfies the bound and minimality properties. -/
theorem crShift_bound_minimal_witness :
    (4 : Nat) < 32
    ∧ (initializeRunTimeObjectAlignmentAndCRShift true 4
        { extDefault with shouldAllowShiftingCompression := true } (2 ^ 35)).2
        = some 3
    ∧ (2 : Nat) ^ 35 ≤ 2 ^ 32 * 2 ^ 3
    ∧ (({ extDefault with shouldAllowShiftingCompression := true }
          : Extensions).shouldForceSpecifiedShiftingCompression = false →
        0 < 3 →
        (2 ^ 32 * 2 ^ (3 - 1) < 2 ^ 35
         ∨ 3 - 1 < DEFAULT_LOW_MEMORY_HEAP_CEILING_SHIFT)) :=
  ⟨by decide, by decide,
   (crShift_bound_minimal 4
      { extDefault with shouldAllowShiftingCompression := true } (2 ^ 35) 3
      (by decide) (by decide)).1,
   (crShift_bound_minimal 4
      { extDefault with shouldAllowShiftingCompression := true } (2 ^ 35) 3
      (by decide) (by decide)).2⟩

/-- Modelled from the spec: MM_Math::roundToCeiling (the MM_Math helpers
are not under src/) — round the value up to the nearest multiple of the
granularity. -/
def roundToCeiling (granularity n : Nat) : Nat :=
  if n % granularity = 0 then n else n + (granularity - n % granularity)

/-- Modelled from the spec: MM_Math::roundToFloor — round the value down
to a multiple of the granularity. -/
def roundToFloor (granularity n : Nat) : Nat := n - n % granularity

/-- The MM_InitializationParameters value object written by
prepareParameters. -/
structure InitializationParameters where
  _minimumSpaceSize : Nat
  _minimumNewSpaceSize : Nat
  _initialNewSpaceSize : Nat
  _maximumNewSpaceSize : Nat
  _minimumOldSpaceSize : Nat
  _initialOldSpaceSize : Nat
  _maximumOldSpaceSize : Nat
  _maximumSpaceSize : Nat
deriving DecidableEq

/-- MM_Configuration::prepareParameters.  The alignment argument stands for
getAlignment(extensions, _alignmentType) and maximumMemorySize for
extensions->heap->getMaximumMemorySize(); tenureFlags is passed by the
source but unused.  uintptr_t sums and products are reduced modulo 2^64;
the let bindings shadow the incoming arguments exactly as the source
reassigns its parameters. -/
def prepareParameters (alignment maximumMemorySize minimumSpaceSize
    minimumNewSpaceSize initialNewSpaceSize maximumNewSpaceSize
    minimumTenureSpaceSize initialTenureSpaceSize maximumTenureSpaceSize
    memoryMax _tenureFlags : Nat) : InitializationParameters :=
  let maximumHeapSize := roundToFloor alignment maximumMemorySize
  let minimumNewSpaceSize := roundToCeiling (alignment * 2 % WORD) minimumNewSpaceSize
  let minimumTenureSpaceSize := roundToCeiling alignment minimumTenureSpaceSize
  let maximumNewSpaceSize := roundToCeiling (alignment * 2 % WORD) maximumNewSpaceSize
  let maximumTenureSpaceSize := roundToCeiling alignment maximumTenureSpaceSize
  let minimumSpaceSize :=
    max (roundToCeiling alignment minimumSpaceSize)
      ((minimumNewSpaceSize + minimumTenureSpaceSize) % WORD)
  let memoryMax :=
    max (roundToCeiling alignment memoryMax)
      ((maximumTenureSpaceSize + maximumNewSpaceSize) % WORD)
  let maximumHeapSize := min maximumHeapSize memoryMax
  let initialNewSpaceSize := roundToCeiling (alignment * 2 % WORD) initialNewSpaceSize
  let initialTenureSpaceSize := roundToCeiling alignment initialTenureSpaceSize
  { _minimumSpaceSize := min maximumHeapSize minimumSpaceSize
    _minimumNewSpaceSize := min maximumHeapSize minimumNewSpaceSize
    _initialNewSpaceSize := min maximumHeapSize initialNewSpaceSize
    _maximumNewSpaceSize := min maximumHeapSize maximumNewSpaceSize
    _minimumOldSpaceSize :=
      min (maximumHeapSize - min maximumHeapSize minimumNewSpaceSize)
        minimumTenureSpaceSize
    _initialOldSpaceSize :=
      min (maximumHeapSize - min maximumHeapSize initialNewSpaceSize)
        initialTenureSpaceSize
    _maximumOldSpaceSize := min maximumHeapSize maximumTenureSpaceSize
    _maximumSpaceSize := maximumHeapSize }

/-- C1 counterexample: a heap of capacity 10 with requested maximum new
and tenure sizes of 10 each (alignment 1): both are clamped to 10
individually, so their sum 20 exceeds the written maximum space size 10,
refuting the claimed conjunction. -/
theorem prepareParameters_counterexample :
    ¬ ((prepareParameters 1 10 0 0 0 10 0 0 10 0 0)._minimumNewSpaceSize
          + (prepareParameters 1 10 0 0 0 10 0 0 10 0 0)._minimumOldSpaceSize
          ≤ (prepareParameters 1 10 0 0 0 10 0 0 10 0 0)._minimumSpaceSize
        ∧ (prepareParameters 1 10 0 0 0 10 0 0 10 0 0)._minimumSpaceSize
          ≤ (prepareParameters 1 10 0 0 0 10 0 0 10 0 0)._maximumSpaceSize
        ∧ (prepareParameters 1 10 0 0 0 10 0 0 10 0 0)._maximumNewSpaceSize
          + (prepareParameters 1 10 0 0 0 10 0 0 10 0 0)._maximumOldSpaceSize
          ≤ (prepareParameters 1 10 0 0 0 10 0 0 10 0 0)._maximumSpaceSize
        ∧ (prepareParameters 1 10 0 0 0 10 0 0 10 0 0)._maximumSpaceSize ≤ 10) := by
  decide

/-- C1 (amended): for inputs small enough that the uintptr_t sums cannot
wrap, the written parameters satisfy
minimumNew + minimumOld ≤ minimumSpaceSize ≤ maximumSpaceSize and
maximumSpaceSize ≤ the heap maximum memory size; the remaining claimed
inequality maximumNew + maximumOld ≤ maximumSpaceSize holds additionally
whenever the aligned heap capacity is at least the resolved overall memory
maximum (that is, the heap is not smaller than the requested bounds). -/
theorem prepareParameters_bounds (alignment maximumMemorySize minimumSpaceSize
    minimumNewSpaceSize initialNewSpaceSize maximumNewSpaceSize
    minimumTenureSpaceSize initialTenureSpaceSize maximumTenureSpaceSize
    memoryMax tenureFlags : Nat)
    (hmin : roundToCeiling (alignment * 2 % WORD) minimumNewSpaceSize
        + roundToCeiling alignment minimumTenureSpaceSize < WORD)
    (hmax : roundToCeiling alignment maximumTenureSpaceSize
        + roundToCeiling (alignment * 2 % WORD) maximumNewSpaceSize < WORD) :
    (prepareParameters alignment maximumMemorySize minimumSpaceSize
        minimumNewSpaceSize initialNewSpaceSize maximumNewSpaceSize
        minimumTenureSpaceSize initialTenureSpaceSize maximumTenureSpaceSize
        memoryMax tenureFlags)._minimumNewSpaceSize
      + (prepareParameters alignment maximumMemorySize minimumSpaceSize
          minimumNewSpaceSize initialNewSpaceSize maximumNewSpaceSize
          minimumTenureSpaceSize initialTenureSpaceSize maximumTenureSpaceSize
          memoryMax tenureFlags)._minimumOldSpaceSize
      ≤ (prepareParameters alignment maximumMemorySize minimumSpaceSize
          minimumNewSpaceSize initialNewSpaceSize maximumNewSpaceSize
          minimumTenureSpaceSize initialTenureSpaceSize maximumTenureSpaceSize
          memoryMax tenureFlags)._minimumSpaceSize
    ∧ (prepareParameters alignment maximumMemorySize minimumSpaceSize
          minimumNewSpaceSize initialNewSpaceSize maximumNewSpaceSize
          minimumTenureSpaceSize initialTenureSpaceSize maximumTenureSpaceSize
          memoryMax tenureFlags)._minimumSpaceSize
      ≤ (prepareParameters alignment maximumMemorySize minimumSpaceSize
          minimumNewSpaceSize initialNewSpaceSize maximumNewSpaceSize
          minimumTenureSpaceSize initialTenureSpaceSize maximumTenureSpaceSize
          memoryMax tenureFlags)._maximumSpaceSize
    ∧ (prepareParameters alignment maximumMemorySize minimumSpaceSize
          minimumNewSpaceSize initialNewSpaceSize maximumNewSpaceSize
          minimumTenureSpaceSize initialTenureSpaceSize maximumTenureSpaceSize
          memoryMax tenureFlags)._maximumSpaceSize ≤ maximumMemorySize
    ∧ (max (roundToCeiling alignment memoryMax)
          (roundToCeiling alignment maximumTenureSpaceSize
            + roundToCeiling (alignment * 2 % WORD) maximumNewSpaceSize)
        ≤ roundToFloor alignment maximumMemorySize →
      (prepareParameters alignment maximumMemorySize minimumSpaceSize
          minimumNewSpaceSize initialNewSpaceSize maximumNewSpaceSize
          minimumTenureSpaceSize initialTenureSpaceSize maximumTenureSpaceSize
          memoryMax tenureFlags)._maximumNewSpaceSize
        + (prepareParameters alignment maximumMemorySize minimumSpaceSize
            minimumNewSpaceSize initialNewSpaceSize maximumNewSpaceSize
            minimumTenureSpaceSize initialTenureSpaceSize maximumTenureSpaceSize
            memoryMax tenureFlags)._maximumOldSpaceSize
        ≤ (prepareParameters alignment maximumMemorySize minimumSpaceSize
            minimumNewSpaceSize initialNewSpaceSize maximumNewSpaceSize
            minimumTenureSpaceSize initialTenureSpaceSize maximumTenureSpaceSize
            memoryMax tenureFlags)._maximumSpaceSize) := by
  have hFloor : roundToFloor alignment maximumMemorySize ≤ maximumMemorySize :=
    Nat.sub_le _ _
  simp only [prepareParameters, Nat.mod_eq_of_lt hmin, Nat.mod_eq_of_lt hmax]
  refine ⟨?_, ?_, ?_, ?_⟩ <;> omega

/-- C1 witness: alignment 16, heap capacity 1000, requested minimum new
space 48 (three times the alignment, rounding to 64), tenure minimum 100,
maximum new 128 and maximum tenure 200. -/
theorem prepareParameters_bounds_witness :
    roundToCeiling (16 * 2 % WORD) 48 + roundToCeiling 16 100 < WORD
    ∧ roundToCeiling 16 200 + roundToCeiling (16 * 2 % WORD) 128 < WORD
    ∧ (prepareParameters 16 1000 0 48 0 128 100 0 200 0 0)._minimumNewSpaceSize
        + (prepareParameters 16 1000 0 48 0 128 100 0 200 0 0)._minimumOldSpaceSize
        ≤ (prepareParameters 16 1000 0 48 0 128 100 0 200 0 0)._minimumSpaceSize
    ∧ (prepareParameters 16 1000 0 48 0 128 100 0 200 0 0)._maximumSpaceSize ≤ 1000 := by
  have h := prepareParameters_bounds 16 1000 0 48 0 128 100 0 200 0 0
    (by decide) (by decide)
  exact ⟨by decide, by decide, h.1, h.2.2.1⟩

/-- Downward search for the smallest shift (at most the given starting
bound) whose power of two can hold the value; used by the spec model of
calculatePowerOfTwoShift and written like the shift-clamping loop. -/
def minShift (value : Nat) : Nat → Nat
  | 0 => 0
  | s + 1 => if value ≤ 2 ^ s then minShift value s else s + 1

/-- Modelled from the spec: calculatePowerOfTwoShift (declared in the
Configuration header, which is not under src/) — the shift of the smallest
power of two that is at least the platform floor 2^floorShift and can
represent the requested value; the sentinel 0 means the request cannot be
represented within the addressable range. -/
def calculatePowerOfTwoShift (floorShift value : Nat) : Nat :=
  if value ≤ 2 ^ 63 then max floorShift (minShift value 64) else 0

theorem minShift_bound (value : Nat) :
    ∀ s, value ≤ 2 ^ s → value ≤ 2 ^ minShift value s
  | 0, h => h
  | s + 1, h => by
    unfold minShift
    split
    · rename_i hc
      exact minShift_bound value s hc
    · exact h

theorem minShift_min (value : Nat) :
    ∀ s, minShift value s = 0 ∨ 2 ^ (minShift value s - 1) < value
  | 0 => Or.inl rfl
  | s + 1 => by
    unfold minShift
    split
    · exact minShift_min value s
    · rename_i hc
      right
      simpa using Nat.lt_of_not_le hc

/-- MM_Configuration::initializeRegionSize: substitute the build default
when the requested region size is 0, compute the power-of-two shift, fail
on the 0 sentinel, otherwise store the power-of-two size and return the
outcome of the structural verifyRegionSize check (a virtual dispatched
outside src/, modelled as a parameter). -/
def initializeRegionSize (floorShift defaultRegionSize : Nat)
    (verifyRegionSize : Nat → Bool) (ext : Extensions) : Bool × Extensions :=
  let regionSize := if ext.regionSize = 0 then defaultRegionSize else ext.regionSize
  let shift := calculatePowerOfTwoShift floorShift regionSize
  if shift = 0 then (false, ext)
  else
    let powerOfTwoRegionSize := 2 ^ shift
    (verifyRegionSize powerOfTwoRegionSize,
      { ext with regionSize := powerOfTwoRegionSize })

/-- C6 counterexample: a representable request (2^20 bytes) still fails
initialization when the structural verifyRegionSize check rejects the
rounded size, refuting the claim that initialization fails exactly when
the request is not representable. -/
theorem initializeRegionSize_counterexample :
    (2 : Nat) ^ 20 ≤ 2 ^ 63
    ∧ (initializeRegionSize 12 (2 ^ 19) (fun _ => false)
        { extDefault with regionSize := 2 ^ 20 }).1 = false := by
  decide

/-- C6 (amended): with a positive platform floor shift, initialization
succeeds exactly when the request (or, for a 0 request, the substituted
build default) is representable and the structural verification accepts
the rounded size; on success the stored region size is the power of two of
the computed shift, which is the smallest power of two at least the
platform floor that can represent the request. -/
theorem initializeRegionSize_spec (floorShift defaultRegionSize : Nat)
    (verifyRegionSize : Nat → Bool) (ext : Extensions)
    (hf1 : 0 < floorShift) (hf2 : floorShift ≤ 63) :
    ((initializeRegionSize floorShift defaultRegionSize verifyRegionSize ext).1 = true
      ↔ ((if ext.regionSize = 0 then defaultRegionSize else ext.regionSize) ≤ 2 ^ 63
          ∧ verifyRegionSize (2 ^ calculatePowerOfTwoShift floorShift
              (if ext.regionSize = 0 then defaultRegionSize else ext.regionSize)) = true))
    ∧ ((initializeRegionSize floorShift defaultRegionSize verifyRegionSize ext).1 = true →
      ((initializeRegionSize floorShift defaultRegionSize verifyRegionSize ext).2.regionSize
          = 2 ^ calculatePowerOfTwoShift floorShift
              (if ext.regionSize = 0 then defaultRegionSize else ext.regionSize)
        ∧ (if ext.regionSize = 0 then defaultRegionSize else ext.regionSize)
          ≤ (initializeRegionSize floorShift defaultRegionSize verifyRegionSize ext).2.regionSize
        ∧ 2 ^ floorShift
          ≤ (initializeRegionSize floorShift defaultRegionSize verifyRegionSize ext).2.regionSize
        ∧ ∀ t : Nat,
            (if ext.regionSize = 0 then defaultRegionSize else ext.regionSize) ≤ 2 ^ t →
            2 ^ floorShift ≤ 2 ^ t →
            (initializeRegionSize floorShift defaultRegionSize verifyRegionSize ext).2.regionSize
              ≤ 2 ^ t)) := by
  set r := if ext.regionSize = 0 then defaultRegionSize else ext.regionSize with hr
  by_cases hrep : r ≤ 2 ^ 63
  · have hshift : calculatePowerOfTwoShift floorShift r
        = max floorShift (minShift r 64) := by
      unfold calculatePowerOfTwoShift
      rw [if_pos hrep]
    have hne : ¬calculatePowerOfTwoShift floorShift r = 0 := by
      rw [hshift]
      omega
    have hbound : r ≤ 2 ^ minShift r 64 :=
      minShift_bound r 64
        (le_trans hrep (Nat.pow_le_pow_right (by norm_num) (by omega)))
    constructor
    · simp only [initializeRegionSize, ← hr, if_neg hne]
      constructor
      · intro hv
        exact ⟨hrep, hv⟩
      · intro hv
        exact hv.2
    · intro _hok
      refine ⟨?_, ?_, ?_, ?_⟩
      · simp [initializeRegionSize, ← hr, if_neg hne]
      · simp only [initializeRegionSize, ← hr, if_neg hne]
        rw [hshift]
        exact le_trans hbound
          (Nat.pow_le_pow_right (by norm_num) (Nat.le_max_right _ _))
      · simp only [initializeRegionSize, ← hr, if_neg hne]
        rw [hshift]
        exact Nat.pow_le_pow_right (by norm_num) (Nat.le_max_left _ _)
      · intro t ht1 ht2
        simp only [initializeRegionSize, ← hr, if_neg hne]
        rw [hshift]
        apply Nat.pow_le_pow_right (by norm_num)
        apply max_le
        · exact (Nat.pow_le_pow_iff_right (by norm_num)).1 ht2
        · rcases minShift_min r 64 with h0 | hlt
          · omega
          · by_contra hcon
            push_neg at hcon
            have hpow : 2 ^ t ≤ 2 ^ (minShift r 64 - 1) :=
              Nat.pow_le_pow_right (by norm_num) (by omega)
            omega
  · have hshift : calculatePowerOfTwoShift floorShift r = 0 := by
      unfold calculatePowerOfTwoShift
      rw [if_neg hrep]
    constructor
    · simp only [initializeRegionSize, ← hr, hshift, if_pos rfl]
      constructor
      · intro hv
        exact absurd hv (by simp)
      · intro hv
        exact absurd hv.1 hrep
    · intro hok
      simp only [initializeRegionSize, ← hr, hshift, if_pos rfl] at hok
      exact absurd hok (by simp)

/-- C6 witness: floor shift 2 and a 0 request with build default 5: the
default is substituted, rounded up to 8 = 2^3, and initialization
succeeds. -/
theorem initializeRegionSize_spec_witness :
    0 < 2 ∧ 2 ≤ 63
    ∧ (initializeRegionSize 2 5 (fun _ => true) extDefault).2.regionSize
        = 2 ^ calculatePowerOfTwoShift 2
            (if extDefault.regionSize = 0 then 5 else extDefault.regionSize)
    ∧ (initializeRegionSize 2 5 (fun _ => true) extDefault).1 = true :=
  ⟨by decide, by decide,
   ((initializeRegionSize_spec 2 5 (fun _ => true) extDefault
      (by decide) (by decide)).2 (by decide)).1,
   by decide⟩

/-- The allocation-type variants dispatched by initializeEnvironment
(gc_modron_allocation_type_tlh / _segregated; any other value is
Assert_MM_unreachable). -/
inductive MM_AllocationType where
  | tlh
  | segregated
deriving DecidableEq

/-- The per-thread environment, as far as Configuration.cpp touches it: the
object allocation interface handle, tagged with the variant that built it
(none = NULL). -/
structure EnvModel where
  objectAllocationInterface : Option MM_AllocationType
deriving DecidableEq

/-- MM_Configuration::initializeEnvironment: equip the environment with the
allocation interface of the configured variant (the newInstance outcomes
are parameters), then run the delegate environmentInitialized hook; the
result is true only when the interface exists and the hook succeeded. -/
def initializeEnvironment (allocationType : MM_AllocationType)
    (tlhNewOk segregatedNewOk delegateEnvOk : Bool) (env : EnvModel) :
    EnvModel × Bool :=
  let iface : Option MM_AllocationType :=
    match allocationType with
    | MM_AllocationType.tlh =>
        if tlhNewOk then some MM_AllocationType.tlh else none
    | MM_AllocationType.segregated =>
        if segregatedNewOk then some MM_AllocationType.segregated else none
  let env1 := { env with objectAllocationInterface := iface }
  (env1, iface.isSome && delegateEnvOk)

/-- MM_Configuration::createEnvironment: allocate a fresh environment
(outcome a parameter), initialize it, and on failure kill it and return
null; the Bool records whether the partially built environment was
killed. -/
def createEnvironment (allocateNewOk : Bool)
    (allocationType : MM_AllocationType)
    (tlhNewOk segregatedNewOk delegateEnvOk : Bool) : Option EnvModel × Bool :=
  if allocateNewOk then
    let p := initializeEnvironment allocationType tlhNewOk segregatedNewOk
      delegateEnvOk { objectAllocationInterface := none }
    if p.2 then (some p.1, false) else (none, true)
  else (none, false)

/-- C7: createEnvironment either returns a fully initialized environment —
equipped with the allocation interface of the configured variant, with the
delegate hook having succeeded — or destroys the partially built
environment and returns null; a non-null return is never partially
initialized. -/
theorem createEnvironment_all_or_nothing (allocateNewOk : Bool)
    (allocationType : MM_AllocationType)
    (tlhNewOk segregatedNewOk delegateEnvOk : Bool) :
    (∃ e, (createEnvironment allocateNewOk allocationType tlhNewOk
          segregatedNewOk delegateEnvOk).1 = some e
        ∧ e.objectAllocationInterface = some allocationType
        ∧ delegateEnvOk = true)
    ∨ ((createEnvironment allocateNewOk allocationType tlhNewOk
          segregatedNewOk delegateEnvOk).1 = none
        ∧ (allocateNewOk = true →
          (createEnvironment allocateNewOk allocationType tlhNewOk
            segregatedNewOk delegateEnvOk).2 = true)) := by
  cases allocateNewOk <;> cases allocationType <;> cases tlhNewOk <;>
    cases segregatedNewOk <;> cases delegateEnvOk <;>
      simp [createEnvironment, initializeEnvironment]

/-- The guarded kill operations tearDown can perform, in source order:
default memory space, reference-chain-walker mark map, global collector
(destroyCollectors), dispatcher, global allocation manager, heap, memory
manager, heap region manager, lock pool.  The unconditional NUMA shutdown
and delegate tearDown are external calls with no handle in this record. -/
inductive KillAction where
  | memorySpace
  | markMap
  | collector
  | dispatcher
  | globalAllocationManager
  | heap
  | memoryManager
  | regionManager
  | lockPool
deriving DecidableEq

/-- State effect of MM_Configuration::tearDown (with destroyCollectors
inlined): each source block kills its resource when the handle is present
and leaves the handle NULL; in either case the field is none afterwards,
except the dispatcher, which Metronome configurations leave to the
collector. -/
def tearDownState (s : Extensions) : Extensions :=
  { s with
    heap := none
    referenceChainWalkerMarkMap := none
    globalCollector := none
    dispatcher := if s.isMetronome then s.dispatcher else none
    globalAllocationManager := none
    memoryManager := none
    heapRegionManager := none
    lightweightNonReentrantLockPool := none }

/-- The kill calls tearDown issues, in source order, each guarded by the
presence check the source performs (the memory space kill additionally
requires the heap to be present, since it is reached through the heap). -/
def tearDownActions (s : Extensions) : List KillAction :=
  (match s.heap with
    | some h => if h.defaultMemorySpace.isSome then [KillAction.memorySpace] else []
    | none => [])
  ++ (if s.referenceChainWalkerMarkMap.isSome then [KillAction.markMap] else [])
  ++ (if s.globalCollector.isSome then [KillAction.collector] else [])
  ++ (if !s.isMetronome && s.dispatcher.isSome then [KillAction.dispatcher] else [])
  ++ (if s.globalAllocationManager.isSome then [KillAction.globalAllocationManager] else [])
  ++ (if s.heap.isSome then [KillAction.heap] else [])
  ++ (if s.memoryManager.isSome then [KillAction.memoryManager] else [])
  ++ (if s.heapRegionManager.isSome then [KillAction.regionManager] else [])
  ++ (if s.lightweightNonReentrantLockPool.isSome then [KillAction.lockPool] else [])

/-- C8: running tearDown twice in succession is safe and the second run
performs no kill operation — after one tearDown every guarded handle is
null, so a second tearDown issues no kill and leaves the state fixed; on
the all-null never-initialized state tearDown already performs nothing. -/
theorem tearDown_idempotent (s : Extensions) :
    tearDownActions (tearDownState s) = []
    ∧ tearDownState (tearDownState s) = tearDownState s
    ∧ tearDownActions extDefault = []
    ∧ tearDownState extDefault = extDefault := by
  refine ⟨?_, ?_, by decide, by decide⟩
  · simp only [tearDownState, tearDownActions]
    by_cases h : s.isMetronome = true <;> simp [h]
  · simp only [tearDownState]
    by_cases h : s.isMetronome = true <;> simp [h]

/-- First block of MM_Configuration::createHeap: lazily create the memory
manager when absent (the newInstance outcome is the parameter). -/
def ensureMemoryManager (mmNewOk : Bool) (ext : Extensions) : Extensions :=
  if ext.memoryManager.isSome then ext
  else { ext with memoryManager := if mmNewOk then some () else none }

/-- Second block of MM_Configuration::createHeap: lazily create the heap
region manager when absent (the createHeapRegionManager outcome is the
parameter). -/
def ensureHeapRegionManager (hrmNewOk : Bool) (ext : Extensions) : Extensions :=
  if ext.heapRegionManager.isSome then ext
  else { ext with heapRegionManager := if hrmNewOk then some () else none }

theorem ensureMM_heap (b : Bool) (e : Extensions) :
    (ensureMemoryManager b e).heap = e.heap := by
  unfold ensureMemoryManager
  split <;> rfl

theorem ensureMM_hrm (b : Bool) (e : Extensions) :
    (ensureMemoryManager b e).heapRegionManager = e.heapRegionManager := by
  unfold ensureMemoryManager
  split <;> rfl

theorem ensureMM_fva (b : Bool) (e : Extensions) :
    (ensureMemoryManager b e).fvtest_verifyHeapAbove = e.fvtest_verifyHeapAbove := by
  unfold ensureMemoryManager
  split <;> rfl

theorem ensureMM_fvb (b : Bool) (e : Extensions) :
    (ensureMemoryManager b e).fvtest_verifyHeapBelow = e.fvtest_verifyHeapBelow := by
  unfold ensureMemoryManager
  split <;> rfl

theorem ensureMM_isNone (b : Bool) (e : Extensions) :
    (ensureMemoryManager b e).memoryManager.isNone
      = (!e.memoryManager.isSome && !b) := by
  cases hm : e.memoryManager <;> cases b <;> simp [ensureMemoryManager, hm]

theorem ensureHRM_heap (b : Bool) (e : Extensions) :
    (ensureHeapRegionManager b e).heap = e.heap := by
  unfold ensureHeapRegionManager
  split <;> rfl

theorem ensureHRM_fva (b : Bool) (e : Extensions) :
    (ensureHeapRegionManager b e).fvtest_verifyHeapAbove
      = e.fvtest_verifyHeapAbove := by
  unfold ensureHeapRegionManager
  split <;> rfl

theorem ensureHRM_fvb (b : Bool) (e : Extensions) :
    (ensureHeapRegionManager b e).fvtest_verifyHeapBelow
      = e.fvtest_verifyHeapBelow := by
  unfold ensureHeapRegionManager
  split <;> rfl

theorem ensureHRM_isNone (b : Bool) (e : Extensions) :
    (ensureHeapRegionManager b e).heapRegionManager.isNone
      = (!e.heapRegionManager.isSome && !b) := by
  cases hm : e.heapRegionManager <;> cases b <;> simp [ensureHeapRegionManager, hm]

theorem crShift_ensureMM (c : Bool) (L t : Nat) (b : Bool) (e : Extensions) :
    initializeRunTimeObjectAlignmentAndCRShift c L (ensureMemoryManager b e) t
      = initializeRunTimeObjectAlignmentAndCRShift c L e t := by
  unfold ensureMemoryManager
  split <;> rfl

theorem crShift_ensureHRM (c : Bool) (L t : Nat) (b : Bool) (e : Extensions) :
    initializeRunTimeObjectAlignmentAndCRShift c L (ensureHeapRegionManager b e) t
      = initializeRunTimeObjectAlignmentAndCRShift c L e t := by
  unfold ensureHeapRegionManager
  split <;> rfl

/-- MM_Configuration::createHeap: lazily create the memory manager and
heap region manager (newInstance outcomes are parameters), construct the
heap (outcome a parameter), run initializeHeapRegionManager, the
compression-shift computation and the delegate heapInitialized hook, then
apply the fvtest address-window check; returns the heap result, the final
extensions state and whether a constructed heap was killed. -/
def createHeap (compressedRefs : Bool) (ceilingShift : Nat)
    (mmNewOk hrmNewOk : Bool) (newHeap : Option HeapM)
    (initHRMOk delegateHeapOk : Bool) (ext : Extensions) :
    Option HeapM × Extensions × Bool :=
  let ext1 := ensureMemoryManager mmNewOk ext
  if ext1.memoryManager.isNone then (none, ext1, false)
  else
    let ext2 := ensureHeapRegionManager hrmNewOk ext1
    if ext2.heapRegionManager.isNone then (none, ext2, false)
    else
      match newHeap with
      | none => (none, ext2, false)
      | some h =>
        if !initHRMOk then (none, ext2, true)
        else if !(initializeRunTimeObjectAlignmentAndCRShift compressedRefs
            ceilingShift ext2 h.top).1 then (none, ext2, true)
        else
          let ext3 := { ext2 with heap := some h }
          if !delegateHeapOk then (none, { ext3 with heap := none }, true)
          else if h.base < ext3.fvtest_verifyHeapAbove
              ∨ (ext3.fvtest_verifyHeapBelow ≠ 0
                  ∧ ext3.fvtest_verifyHeapBelow < h.top) then
            (none, { ext3 with heap := none }, true)
          else (some h, ext3, false)

/-- C9: starting from a state with no published heap, whenever createHeap
returns null the extensions heap handle is still null; and when the
constructed heap violates the fvtest address window (base below the
configured lower bound, or top above a configured upper bound) after all
earlier steps succeeded, the heap is killed, the handle is reset to null
and null is returned. -/
theorem createHeap_failure_unpublished (compressedRefs : Bool)
    (ceilingShift : Nat) (mmNewOk hrmNewOk : Bool) (newHeap : Option HeapM)
    (initHRMOk delegateHeapOk : Bool) (ext : Extensions)
    (hheap : ext.heap = none) :
    ((createHeap compressedRefs ceilingShift mmNewOk hrmNewOk newHeap
        initHRMOk delegateHeapOk ext).1 = none →
      (createHeap compressedRefs ceilingShift mmNewOk hrmNewOk newHeap
        initHRMOk delegateHeapOk ext).2.1.heap = none)
    ∧ (∀ h : HeapM, newHeap = some h →
      (ext.memoryManager.isSome = true ∨ mmNewOk = true) →
      (ext.heapRegionManager.isSome = true ∨ hrmNewOk = true) →
      initHRMOk = true →
      (initializeRunTimeObjectAlignmentAndCRShift compressedRefs ceilingShift
        ext h.top).1 = true →
      delegateHeapOk = true →
      (h.base < ext.fvtest_verifyHeapAbove
        ∨ (ext.fvtest_verifyHeapBelow ≠ 0 ∧ ext.fvtest_verifyHeapBelow < h.top)) →
      ((createHeap compressedRefs ceilingShift mmNewOk hrmNewOk newHeap
          initHRMOk delegateHeapOk ext).1 = none
        ∧ (createHeap compressedRefs ceilingShift mmNewOk hrmNewOk newHeap
            initHRMOk delegateHeapOk ext).2.1.heap = none
        ∧ (createHeap compressedRefs ceilingShift mmNewOk hrmNewOk newHeap
            initHRMOk delegateHeapOk ext).2.2 = true)) := by
  constructor
  · cases newHeap with
    | none =>
      simp only [createHeap, ensureMM_heap, ensureMM_hrm, ensureMM_fva,
        ensureMM_fvb, ensureMM_isNone, ensureHRM_heap, ensureHRM_fva,
        ensureHRM_fvb, ensureHRM_isNone, crShift_ensureMM, crShift_ensureHRM]
      split_ifs <;> simp_all [ensureMM_heap, ensureHRM_heap]
    | some h =>
      simp only [createHeap, ensureMM_heap, ensureMM_hrm, ensureMM_fva,
        ensureMM_fvb, ensureMM_isNone, ensureHRM_heap, ensureHRM_fva,
        ensureHRM_fvb, ensureHRM_isNone, crShift_ensureMM, crShift_ensureHRM]
      split_ifs <;> simp_all [ensureMM_heap, ensureHRM_heap]
  · intro h hnew hmm hhrm hinit hcr hdel hviol
    subst hnew
    simp only [createHeap, ensureMM_heap, ensureMM_hrm, ensureMM_fva,
      ensureMM_fvb, ensureMM_isNone, ensureHRM_heap, ensureHRM_fva,
      ensureHRM_fvb, ensureHRM_isNone, crShift_ensureMM, crShift_ensureHRM]
    split_ifs <;> simp_all [ensureMM_heap, ensureHRM_heap]

/-- C9 witness: a heap built at base 50 / top 200 while the fvtest lower
bound is 100: the heap is killed, the handle stays null and null is
returned. -/
theorem createHeap_failure_unpublished_witness :
    ({ extDefault with fvtest_verifyHeapAbove := 100 } : Extensions).heap = none
    ∧ (createHeap false 0 true true (some { defaultMemorySpace := none, base := 50, top := 200 })
        true true { extDefault with fvtest_verifyHeapAbove := 100 }).1 = none
    ∧ (createHeap false 0 true true (some { defaultMemorySpace := none, base := 50, top := 200 })
        true true { extDefault with fvtest_verifyHeapAbove := 100 }).2.1.heap = none
    ∧ (createHeap false 0 true true (some { defaultMemorySpace := none, base := 50, top := 200 })
        true true { extDefault with fvtest_verifyHeapAbove := 100 }).2.2 = true := by
  have hw := (createHeap_failure_unpublished false 0 true true
      (some { defaultMemorySpace := none, base := 50, top := 200 }) true true
      { extDefault with fvtest_verifyHeapAbove := 100 } rfl).2
      { defaultMemorySpace := none, base := 50, top := 200 }
      rfl (Or.inr rfl) (Or.inr rfl) rfl (by decide) rfl (Or.inl (by decide))
  exact ⟨rfl, hw.1, hw.2.1, hw.2.2⟩

/-- MM_Configuration::initialize: region-size fixing, arraylet-leaf-size
fixing, the delegate initialize step, NUMA activation and the lock-pool
allocation are represented by their boolean outcomes (none of those steps
touches the excessive-GC fields); after the delegate step succeeds the
excessive-GC option is switched on unless the user specified it, then the
GC thread count and GC parameters are derived and the lock pool is
allocated. -/
def initializeConfig (criuBuild scavengerBuild : Bool) (adjust : Nat → Nat)
    (cpus maxGCThreadCount : Nat)
    (regionOk arrayletOk delegateInitOk numaOk poolOk : Bool)
    (ext : Extensions) : Bool × Extensions :=
  if regionOk && arrayletOk then
    if delegateInitOk then
      let ext1 :=
        if !ext.excessiveGCEnabled_wasSpecified then
          { ext with excessiveGCEnabled_valueSpecified := true }
        else ext
      if numaOk then
        let ext2 := initializeGCThreadCount criuBuild adjust cpus
          maxGCThreadCount ext1
        let ext3 := initializeGCParameters scavengerBuild cpus ext2
        let ext4 := { ext3 with
          lightweightNonReentrantLockPool := if poolOk then some () else none }
        (poolOk, ext4)
      else (false, ext1)
    else (false, ext)
  else (false, ext)

theorem gcParams_excessive_w (sb : Bool) (c : Nat) (e : Extensions) :
    (initializeGCParameters sb c e).excessiveGCEnabled_wasSpecified
      = e.excessiveGCEnabled_wasSpecified := by
  rw [initializeGCParameters_eq]

theorem gcParams_excessive_v (sb : Bool) (c : Nat) (e : Extensions) :
    (initializeGCParameters sb c e).excessiveGCEnabled_valueSpecified
      = e.excessiveGCEnabled_valueSpecified := by
  rw [initializeGCParameters_eq]

theorem gcTC_excessive_w (cb : Bool) (a : Nat → Nat) (c m : Nat) (e : Extensions) :
    (initializeGCThreadCount cb a c m e).excessiveGCEnabled_wasSpecified
      = e.excessiveGCEnabled_wasSpecified :=
  (gcThreadCount_preserves cb a c m e).2.2.2.2.1

theorem gcTC_excessive_v (cb : Bool) (a : Nat → Nat) (c m : Nat) (e : Extensions) :
    (initializeGCThreadCount cb a c m e).excessiveGCEnabled_valueSpecified
      = e.excessiveGCEnabled_valueSpecified :=
  (gcThreadCount_preserves cb a c m e).2.2.2.2.2

theorem ensureMM_excessive_w (b : Bool) (e : Extensions) :
    (ensureMemoryManager b e).excessiveGCEnabled_wasSpecified
      = e.excessiveGCEnabled_wasSpecified := by
  unfold ensureMemoryManager
  split <;> rfl

theorem ensureMM_excessive_v (b : Bool) (e : Extensions) :
    (ensureMemoryManager b e).excessiveGCEnabled_valueSpecified
      = e.excessiveGCEnabled_valueSpecified := by
  unfold ensureMemoryManager
  split <;> rfl

theorem ensureHRM_excessive_w (b : Bool) (e : Extensions) :
    (ensureHeapRegionManager b e).excessiveGCEnabled_wasSpecified
      = e.excessiveGCEnabled_wasSpecified := by
  unfold ensureHeapRegionManager
  split <;> rfl

theorem ensureHRM_excessive_v (b : Bool) (e : Extensions) :
    (ensureHeapRegionManager b e).excessiveGCEnabled_valueSpecified
      = e.excessiveGCEnabled_valueSpecified := by
  unfold ensureHeapRegionManager
  split <;> rfl

/-- C10: when region-size, arraylet-leaf-size and delegate initialization
succeed and the user did not specify the excessive-GC option, initialize
turns the excessive-GC value flag on; when the user did specify it, the
flag is untouched; and no other operation modelled from this file
(tearDown, initializeGCThreadCount, initializeGCParameters,
reinitializeForRestore, createHeap, initializeRegionSize) touches either
excessive-GC field. -/
theorem initialize_excessiveGC_flag (criuBuild scavengerBuild : Bool)
    (adjust : Nat → Nat) (cpus maxGCThreadCount : Nat)
    (regionOk arrayletOk delegateInitOk numaOk poolOk : Bool)
    (ext : Extensions) :
    (regionOk = true → arrayletOk = true → delegateInitOk = true →
      ext.excessiveGCEnabled_wasSpecified = false →
      (initializeConfig criuBuild scavengerBuild adjust cpus maxGCThreadCount
        regionOk arrayletOk delegateInitOk numaOk poolOk
        ext).2.excessiveGCEnabled_valueSpecified = true)
    ∧ (ext.excessiveGCEnabled_wasSpecified = true →
      (initializeConfig criuBuild scavengerBuild adjust cpus maxGCThreadCount
        regionOk arrayletOk delegateInitOk numaOk poolOk
        ext).2.excessiveGCEnabled_valueSpecified
        = ext.excessiveGCEnabled_valueSpecified)
    ∧ (∀ s : Extensions,
      (tearDownState s).excessiveGCEnabled_wasSpecified
          = s.excessiveGCEnabled_wasSpecified
        ∧ (tearDownState s).excessiveGCEnabled_valueSpecified
          = s.excessiveGCEnabled_valueSpecified)
    ∧ (∀ s : Extensions,
      (initializeGCThreadCount criuBuild adjust cpus maxGCThreadCount
          s).excessiveGCEnabled_valueSpecified
        = s.excessiveGCEnabled_valueSpecified)
    ∧ (∀ s : Extensions,
      (initializeGCParameters scavengerBuild cpus
          s).excessiveGCEnabled_valueSpecified
        = s.excessiveGCEnabled_valueSpecified)
    ∧ (∀ (s : Extensions) (dOk tOk : Bool),
      (reinitializeForRestore scavengerBuild adjust cpus maxGCThreadCount
          dOk tOk s).2.excessiveGCEnabled_valueSpecified
        = s.excessiveGCEnabled_valueSpecified)
    ∧ (∀ (s : Extensions) (c : Bool) (L : Nat) (mOk hOk : Bool)
        (nh : Option HeapM) (iOk dOk : Bool),
      (createHeap c L mOk hOk nh iOk dOk s).2.1.excessiveGCEnabled_valueSpecified
        = s.excessiveGCEnabled_valueSpecified)
    ∧ (∀ (s : Extensions) (fs ds : Nat) (vf : Nat → Bool),
      (initializeRegionSize fs ds vf s).2.excessiveGCEnabled_valueSpecified
        = s.excessiveGCEnabled_valueSpecified) := by
  refine ⟨?_, ?_, ?_, ?_, ?_, ?_, ?_, ?_⟩
  · intro h1 h2 h3 h4
    simp only [initializeConfig, h1, h2, h3, h4]
    split_ifs <;> simp_all [gcParams_excessive_v, gcTC_excessive_v]
  · intro h
    simp only [initializeConfig, h, Bool.not_true]
    split_ifs <;> simp_all [gcParams_excessive_v, gcTC_excessive_v]
  · intro s
    exact ⟨rfl, rfl⟩
  · intro s
    exact gcTC_excessive_v criuBuild adjust cpus maxGCThreadCount s
  · intro s
    exact gcParams_excessive_v scavengerBuild cpus s
  · intro s dOk tOk
    simp [reinitializeForRestore, gcParams_excessive_v, gcTC_excessive_v]
  · intro s c L mOk hOk nh iOk dOk
    cases nh with
    | none =>
      simp only [createHeap]
      split_ifs <;>
        simp_all [ensureMM_excessive_v, ensureHRM_excessive_v]
    | some h =>
      simp only [createHeap]
      split_ifs <;>
        simp_all [ensureMM_excessive_v, ensureHRM_excessive_v]
  · intro s fs ds vf
    simp only [initializeRegionSize]
    split_ifs <;> rfl

/-- C10 witness: on a default state with the excessive-GC option not user
specified and all early steps succeeding, the flag is switched on. -/
theorem initialize_excessiveGC_flag_witness :
    extDefault.excessiveGCEnabled_wasSpecified = false
    ∧ (initializeConfig false false (fun n => n) 4 64 true true true true true
        extDefault).2.excessiveGCEnabled_valueSpecified = true :=
  ⟨rfl,
   (initialize_excessiveGC_flag false false (fun n => n) 4 64 true true true
      true true extDefault).1 rfl rfl rfl rfl⟩
